import Mathlib

/-!
Verification of the NodePanel event-stream component (`src/components/nodepass/EventLog.tsx`).

The TypeScript source is shallowly embedded: JS strings become `List Char`
(so that the incremental chunk splitting of the read loop can be reasoned
about directly), JSON values become the inductive `Json`, and the platform
primitives `JSON.parse` / `JSON.stringify` — which are external to the
repository — are abstracted as a `Codec` record. Stateful parts (the read
loop, the reconnection bookkeeping held in React refs/state) become explicit
state records with pure transition functions, one per source function.
-/

namespace NodePanel

/-- Characters of a string literal; JS strings are modelled as `List Char`. -/
def chars (s : String) : List Char := s.toList

/-- JS strings, modelled as character lists. -/
abbrev Str := List Char

/-- `p` is a leading segment of `s` — models JS `String.prototype.startsWith`. -/
def startsWithL : Str → Str → Bool
  | [], _ => true
  | _ :: _, [] => false
  | a :: ps, b :: ss => a == b && startsWithL ps ss

/-- `p` occurs contiguously in `s` — models JS `String.prototype.includes`. -/
def containsStr (p : Str) : Str → Bool
  | [] => startsWithL p []
  | c :: t => startsWithL p (c :: t) || containsStr p t

/-- Models JS `String.prototype.trim`: strip whitespace from both ends. -/
def trimL (s : Str) : Str :=
  ((s.dropWhile Char.isWhitespace).reverse.dropWhile Char.isWhitespace).reverse

/-- Models JS `String.prototype.toLowerCase` (ASCII range suffices here). -/
def lowerL (s : Str) : Str := s.map Char.toLower

/-- Decimal rendering of a number, as interpolated by a JS template literal. -/
def natChars (n : Nat) : Str := (toString n).toList

/-- Models JS `s.split('\n')` (single-newline split, no empty-segment removal). -/
def split1NL : Str → List Str
  | [] => [[]]
  | c :: rest =>
    if c = '\n' then [] :: split1NL rest
    else
      match split1NL rest with
      | [] => [[c]]
      | seg :: segs => (c :: seg) :: segs

/-- Models `buffer.split('\n\n')` followed by `messageBlocks.pop() || ''`
(lines 240–241 of `EventLog.tsx`): the first component is the list of
complete `"\n\n"`-terminated blocks (in order), the second is the trailing
remainder kept in the buffer for the next delivery. The separator is
consumed greedily left-to-right, exactly as JS `String.prototype.split`. -/
def splitBuf : Str → List Str × Str
  | [] => ([], [])
  | [c] => ([], [c])
  | c :: d :: rest =>
    if c = '\n' ∧ d = '\n' then
      ([] :: (splitBuf rest).1, (splitBuf rest).2)
    else
      match splitBuf (d :: rest) with
      | ([], r) => ([], c :: r)
      | (seg :: bs, r) => ((c :: seg) :: bs, r)

/-- JSON values (numbers as integers; no claim depends on float rendering). -/
inductive Json where
  | null : Json
  | bool : Bool → Json
  | num : Int → Json
  | str : Str → Json
  | arr : List Json → Json
  | obj : List (Str × Json) → Json

/-- Structural equality test for JSON values. -/
def beqJson : Json → Json → Bool
  | Json.null, Json.null => true
  | Json.bool a, Json.bool b => a == b
  | Json.num a, Json.num b => a == b
  | Json.str a, Json.str b => a == b
  | Json.arr [], Json.arr [] => true
  | Json.arr (x :: xs), Json.arr (y :: ys) =>
    beqJson x y && beqJson (Json.arr xs) (Json.arr ys)
  | Json.obj [], Json.obj [] => true
  | Json.obj ((k1, v1) :: xs), Json.obj ((k2, v2) :: ys) =>
    k1 == k2 && beqJson v1 v2 && beqJson (Json.obj xs) (Json.obj ys)
  | _, _ => false

theorem beqJson_iff : ∀ a b, beqJson a b = true ↔ a = b := by
  intro a b
  induction a, b using beqJson.induct with
  | case1 => simp [beqJson]
  | case2 a b => simp [beqJson]
  | case3 a b => simp [beqJson]
  | case4 a b => simp [beqJson]
  | case5 => simp [beqJson]
  | case6 x xs y ys ih1 ih2 => simp [beqJson, ih1, ih2]
  | case7 => simp [beqJson]
  | case8 k1 v1 xs k2 v2 ys ih1 ih2 => simp [beqJson, ih1, ih2, and_assoc]
  | case9 a b h1 h2 h3 h4 h5 h6 h7 h8 =>
    cases a <;> cases b <;> try (simp [beqJson]; done)
    all_goals (rename_i l1 l2; cases l1 <;> cases l2 <;> try (simp [beqJson]; done))
    all_goals
      first
      | exact (h6 _ _ _ _ rfl rfl).elim
      | (rename_i p xs q ys
         obtain ⟨k1, v1⟩ := p
         obtain ⟨k2, v2⟩ := q
         exact (h8 k1 v1 xs k2 v2 ys rfl rfl).elim)

instance : DecidableEq Json := fun a b => decidable_of_iff _ (beqJson_iff a b)

/-- JS property access `j.k` on a parsed JSON value: `none` models `undefined`. -/
def getField (j : Json) (k : Str) : Option Json :=
  match j with
  | Json.obj kvs => (kvs.find? (fun p => p.1 == k)).map Prod.snd
  | _ => none

/-- JS truthiness of a JSON value. -/
def jsTruthy : Json → Bool
  | Json.null => false
  | Json.bool b => b
  | Json.num n => n != 0
  | Json.str s => !s.isEmpty
  | Json.arr _ => true
  | Json.obj _ => true

/-- JS truthiness of a possibly-absent (`undefined`) value. -/
def jsTruthyOpt : Option Json → Bool
  | none => false
  | some v => jsTruthy v

/-- The platform JSON primitives used by the component. `JSON.parse` and
`JSON.stringify` are browser builtins, external to the repository, so they
are abstracted: `parse` returns `none` where `JSON.parse` would throw. -/
structure Codec where
  parse : Str → Option Json
  stringify : Json → Str

/-- The five log-level tokens, in the order of the regex alternation
`/\b(DEBUG|INFO|WARN|ERROR|FATAL)\b/i` (`EventLog.tsx` line 38). -/
def LOG_LEVEL_TOKENS : List Str :=
  [chars "DEBUG", chars "INFO", chars "WARN", chars "ERROR", chars "FATAL"]

/-- JS regex word character (`\w` = `[A-Za-z0-9_]`). -/
def isWordChar (c : Char) : Bool := c.isAlphanum || c = '_'

/-- Case-insensitive character comparison (ASCII tokens only). -/
def upperEq (a b : Char) : Bool := a.toUpper == b.toUpper

/-- `tok` matches at the head of `s`, case-insensitively, with a word
boundary after it (`tok` itself is all word characters). -/
def tokenAt : Str → Str → Bool
  | [], [] => true
  | [], c :: _ => !isWordChar c
  | _ :: _, [] => false
  | t :: ts, c :: cs => upperEq t c && tokenAt ts cs

/-- The level token matching at the current position, given whether the
previous character was a word character (a `\b` boundary needs it not to be). -/
def levelHere (prevIsWord : Bool) (s : Str) : Option Str :=
  if prevIsWord then none
  else LOG_LEVEL_TOKENS.find? (fun tok => tokenAt tok s)

/-- Left-to-right scan for the first whole-word level token. -/
def scanLevel : Bool → Str → Option Str
  | prevW, [] => levelHere prevW []
  | prevW, c :: cs =>
    match levelHere prevW (c :: cs) with
    | some t => some t
    | none => scanLevel (isWordChar c) cs

/-- Models `parseLogLevel` (`EventLog.tsx` lines 36-40): the uppercased first
whole-word case-insensitive match of DEBUG/INFO/WARN/ERROR/FATAL, if any.
The tokens have pairwise-distinct initial letters, so the leftmost regex
match is the leftmost position where any single token matches. -/
def parseLogLevel (logMessage : Str) : Option Str := scanLevel false logMessage

/-- `InstanceEvent['type']` — the frontend event categories. -/
inductive EvKind where
  | initial | create | update | delete | log | shutdown | error
deriving DecidableEq

/-- UI connection status (`uiConnectionStatus` state, line 47). -/
inductive UiStatus where
  | connecting | connected | disconnected | error | idle
deriving DecidableEq

/-- The decoded event appended to the log (`InstanceEvent` of
`types/nodepass`, as used by this component): `data` is the `any`-typed
payload, `instanceDetails` the optional embedded instance object, `level`
the optional extracted log level, `timestamp` the raw `time` field or the
decode-time clock value. -/
structure InstanceEvent where
  type : EvKind
  data : Json
  instanceDetails : Option Json
  level : Option Str
  timestamp : Json
deriving DecidableEq

/-- `STATUS_MESSAGE_KEYWORDS` (`EventLog.tsx` line 33). -/
def STATUS_MESSAGE_KEYWORDS : List Str :=
  [chars "正在初始化", chars "错误", chars "已连接", chars "已禁用",
   chars "无法建立", chars "服务器关闭", chars "事件流连接已由服务器关闭",
   chars "连接已断开"]

/-- `typeof d === 'string' && STATUS_MESSAGE_KEYWORDS.some(kw => d.includes(kw))`. -/
def isStatusData (d : Json) : Bool :=
  match d with
  | Json.str s => STATUS_MESSAGE_KEYWORDS.any (fun kw => containsStr kw s)
  | _ => false

/-- Models `addEventToLog` (`EventLog.tsx` lines 60-71): if the new event is
a status message, drop buffered status messages first; then prepend the new
event and keep at most the first 199 older entries (`slice(0, 199)`). -/
def addEventToLog (newEvent : InstanceEvent) (prevEvents : List InstanceEvent) :
    List InstanceEvent :=
  let filteredPrevEvents :=
    if isStatusData newEvent.data then
      prevEvents.filter (fun e => !(isStatusData e.data))
    else prevEvents
  newEvent :: filteredPrevEvents.take 199

/-- Line scan of one message block (`EventLog.tsx` lines 75-85): each line
starting with `event:` overwrites the event name (default `"message"`), each
line starting with `data:` overwrites the data payload (last one wins).
Returns `(eventTypeFromServer, eventDataLine)`. -/
def frameFields (messageBlock : Str) : Str × Str :=
  (split1NL messageBlock).foldl
    (fun acc line =>
      if startsWithL (chars "event:") line then (trimL (line.drop 6), acc.2)
      else if startsWithL (chars "data:") line then (acc.1, trimL (line.drop 5))
      else acc)
    (chars "message", [])

/-- JS template-literal interpolation `${v}` of a possibly-undefined value
(used for the unknown-type tag at line 120). -/
def jsTemplate : Option Json → Str
  | none => chars "undefined"
  | some (Json.str s) => s
  | some (Json.num n) => (toString n).toList
  | some (Json.bool b) => (toString b).toList
  | some Json.null => chars "null"
  | some (Json.arr _) => []
  | some (Json.obj _) => chars "[object Object]"

/-- `serverEventPayload.time || new Date().toISOString()` (line 132),
with `now` the decode-time clock string. -/
def jsTime (serverEventPayload : Json) (now : Str) : Json :=
  match getField serverEventPayload (chars "time") with
  | some t => if jsTruthy t then t else Json.str now
  | none => Json.str now

/-- The four lifecycle cases of the switch (lines 96-99). -/
def lifecycleKind (t : Str) : Option EvKind :=
  if t == chars "initial" then some EvKind.initial
  else if t == chars "create" then some EvKind.create
  else if t == chars "update" then some EvKind.update
  else if t == chars "delete" then some EvKind.delete
  else none

/-- The `switch (serverEventPayload.type)` of `processSseMessageData`
(lines 95-125), for a successfully parsed payload. Returns the frontend
event kind, the event data, the extracted level, and whether the branch
aborts the in-flight read (only `shutdown` does, lines 113-115). -/
def classifyInstanceEvent (cdc : Codec) (serverEventPayload : Json) :
    EvKind × Json × Option Str × Bool :=
  let instanceDetailsPayload := getField serverEventPayload (chars "instance")
  let dataField := getField serverEventPayload (chars "data")
  let typeField := getField serverEventPayload (chars "type")
  let unknownCase : EvKind × Json × Option Str × Bool :=
    let target :=
      if jsTruthyOpt dataField then dataField.getD Json.null
      else if jsTruthyOpt instanceDetailsPayload then instanceDetailsPayload.getD Json.null
      else serverEventPayload
    let msg := chars "未知事件 " ++ jsTemplate typeField ++ chars ": " ++ cdc.stringify target
    (EvKind.log, Json.str msg, parseLogLevel msg, false)
  match typeField with
  | some (Json.str t) =>
    match lifecycleKind t with
    | some k =>
      (k,
       (if jsTruthyOpt instanceDetailsPayload then instanceDetailsPayload.getD Json.null
        else if jsTruthyOpt dataField then dataField.getD Json.null
        else Json.obj []),
       none, false)
    | none =>
      if t == chars "log" then
        let logsField := getField serverEventPayload (chars "logs")
        let d : Json :=
          if jsTruthyOpt logsField then logsField.getD Json.null
          else Json.str (chars "日志事件，但缺少 .logs 字段: " ++
                         cdc.stringify serverEventPayload)
        let lvl := match d with
          | Json.str s => parseLogLevel s
          | _ => none
        (EvKind.log, d, lvl, false)
      else if t == chars "shutdown" then
        (EvKind.shutdown, Json.str (chars "主控服务即将关闭。事件流已停止。"), none, true)
      else unknownCase
  | _ => unknownCase

/-- Models `processSseMessageData` (`EventLog.tsx` lines 74-157) as a pure
function: the decoded event for one message block (or `none`), plus whether
the block triggered `abortController.abort(...)`. The caller applies
`addEventToLog` to the produced event, as the source does. -/
def processSseMessageData (cdc : Codec) (now : Str) (messageBlock : Str) :
    Option InstanceEvent × Bool :=
  let eventTypeFromServer := (frameFields messageBlock).1
  let eventDataLine := (frameFields messageBlock).2
  if eventTypeFromServer == chars "instance" && !eventDataLine.isEmpty then
    match cdc.parse eventDataLine with
    | some serverEventPayload =>
      let r := classifyInstanceEvent cdc serverEventPayload
      (some { type := r.1, data := r.2.1,
              instanceDetails := getField serverEventPayload (chars "instance"),
              level := r.2.2.1,
              timestamp := jsTime serverEventPayload now }, r.2.2.2)
    | none =>
      (some { type := EvKind.log,
              data := Json.str (chars "解析事件错误 (fetch): " ++ eventDataLine),
              instanceDetails := none, level := none,
              timestamp := Json.str now }, false)
  else if !eventDataLine.isEmpty then
    if startsWithL (chars "retry:") eventDataLine then (none, false)
    else
      (some { type := EvKind.log,
              data := Json.str (chars "通用消息 (fetch): " ++ eventDataLine),
              instanceDetails := none, level := none,
              timestamp := Json.str now }, false)
  else (none, false)

/-- State of one read loop: the partial-frame text buffer, the ring-buffer
log (`events` state, maintained through `addEventToLog`), the events
delivered in arrival order, and the abort flag of the attempt's
`AbortController` signal. -/
structure LoopState where
  buffer : Str
  log : List InstanceEvent
  emitted : List InstanceEvent
  aborted : Bool
deriving DecidableEq

/-- Processing of one complete block inside the chunk loop
(lines 243-247): skip blocks that trim to empty, otherwise decode and
append; a `shutdown` block flips the abort flag. -/
def applyBlock (cdc : Codec) (now : Str) (st : LoopState) (block : Str) : LoopState :=
  if trimL block ≠ [] then
    match processSseMessageData cdc now block with
    | (some ev, ab) =>
      { st with log := addEventToLog ev st.log,
                emitted := st.emitted ++ [ev],
                aborted := st.aborted || ab }
    | (none, ab) => { st with aborted := st.aborted || ab }
  else st

/-- One delivery of decoded chunk text (lines 239-247): append to the
buffer, split on `"\n\n"`, keep the trailing partial block, feed each
complete non-blank block to `processSseMessageData`. -/
def processChunk (cdc : Codec) (now : Str) (st : LoopState) (chunkText : Str) : LoopState :=
  let parts := splitBuf (st.buffer ++ chunkText)
  let st1 := parts.1.foldl (applyBlock cdc now) st
  { st1 with buffer := parts.2 }

/-- One outcome of `await reader.read()` (or a thrown read error). -/
inductive ReadResult where
  | chunk : Str → ReadResult
  | done : ReadResult
  | fail : Str → ReadResult
deriving DecidableEq

/-- How the read loop ends. -/
inductive LoopOutcome where
  | ranOut : LoopOutcome
  | stopped : LoopOutcome
  | reconnect : Str → LoopOutcome
deriving DecidableEq

/-- The read loop of `connectWithFetch` (lines 223-261): after each read the
abort flag is checked first (an aborted attempt stops silently — this also
models the catch branch for `AbortError`); a server `done` schedules a
reconnect with reason `"服务器关闭"`; a read error schedules a reconnect
with the error message; a chunk is processed and the loop continues.
`LoopOutcome.reconnect r` means `scheduleReconnect(r)` is invoked. -/
def runLoop (cdc : Codec) (now : Str) (st : LoopState) :
    List ReadResult → LoopState × LoopOutcome
  | [] => (st, LoopOutcome.ranOut)
  | r :: rs =>
    if st.aborted then (st, LoopOutcome.stopped)
    else
      match r with
      | ReadResult.chunk s => runLoop cdc now (processChunk cdc now st s) rs
      | ReadResult.done => (st, LoopOutcome.reconnect (chars "服务器关闭"))
      | ReadResult.fail m => (st, LoopOutcome.reconnect m)

/-- `RECONNECT_DELAY_MS` (`EventLog.tsx` line 31). -/
def RECONNECT_DELAY_MS : Nat := 5000

/-- Modelled from the spec: `getEventsUrl` is imported from `src/lib/api`,
which is not among the provided sources; spec §6 states the feed endpoint is
`GET <root>/events`. -/
def getEventsUrl (apiRoot : Str) : Str := apiRoot ++ chars "/events"

/-- JS falsiness of a nullable string prop (`!apiId` etc.): `null` or `""`. -/
def optFalsy : Option Str → Bool
  | none => true
  | some s => s.isEmpty

/-- Session-level state of the `EventLog` component: the `events` ring
buffer, the two connection booleans, the UI status, the current
`AbortController` (`none` = no controller yet, `some b` = a controller whose
signal has `aborted = b`), the pending reconnect timer with its delay, and
the ref-held counters/flags. -/
structure SessionSt where
  events : List InstanceEvent
  isConnected : Bool
  isConnecting : Bool
  uiConnectionStatus : UiStatus
  controller : Option Bool
  reconnectTimeout : Option Nat
  retryCount : Nat
  hasLoggedInitialConnection : Bool
  currentApiId : Option Str
deriving DecidableEq

/-- The cross-origin/network reason heuristic (lines 280-282). -/
def corsSuspected (reason : Str) : Bool :=
  containsStr (chars "failed to fetch") (lowerL reason) ||
  containsStr (chars "networkerror") (lowerL reason)

/-- The CORS hint text appended when `corsSuspected` (line 281). -/
def corsHintText : Str :=
  chars "这通常由于目标服务器的CORS策略阻止了请求 (缺少 Access-Control-Allow-Origin 头部), 或网络连接问题。"

/-- Models `scheduleReconnect` (`EventLog.tsx` lines 266-298): an early
return when the current controller is already aborted (deliberate
cancellation); otherwise the retry counter increments, the UI status becomes
`disconnected`, an error diagnostic is appended — but only from the second
consecutive retry on — and the (freshly cleared) reconnect timer is set to
fire after `RECONNECT_DELAY_MS`. -/
def scheduleReconnect (apiRoot : Option Str) (now : Str) (reason : Str)
    (st : SessionSt) : SessionSt :=
  if (match st.controller with | some b => b | none => false) then st
  else
    let retry := st.retryCount + 1
    let eventsUrl := match apiRoot with
      | some r => getEventsUrl r
      | none => chars "未知目标"
    let uiErrorMessage :=
      if startsWithL (chars "服务器关闭") reason then
        chars "事件流连接已由服务器关闭。" ++ natChars (RECONNECT_DELAY_MS / 1000) ++
        chars "秒后尝试第 " ++ natChars retry ++ chars " 次重连... (目标: " ++
        eventsUrl ++ chars ")"
      else
        let corsHint := if corsSuspected reason then corsHintText else []
        chars "无法建立 SSE 连接 (fetch) 到 " ++ eventsUrl ++ chars ". 原因: " ++
        reason.take 100 ++ chars "... " ++ corsHint ++ chars " " ++
        natChars (RECONNECT_DELAY_MS / 1000) ++ chars "秒后尝试第 " ++
        natChars retry ++ chars " 次重连..."
    let events' :=
      if retry > 1 then
        addEventToLog
          { type := EvKind.log, data := Json.str uiErrorMessage,
            instanceDetails := none, level := some (chars "ERROR"),
            timestamp := Json.str now } st.events
      else st.events
    { st with
      retryCount := retry
      isConnected := false
      uiConnectionStatus := UiStatus.disconnected
      events := events'
      reconnectTimeout := some RECONNECT_DELAY_MS }

/-- The synchronous front of `connectWithFetch` (`EventLog.tsx` lines
160-186), before the `fetch` is awaited: the invalid-configuration guard
(which appends one disabled-feed diagnostic and leaves the status `idle`
without connecting), the abort of any previous controller plus creation of a
fresh one, the initial-attempt diagnostics, and the clearing of any pending
reconnect timer. The returned `Bool` is whether the request proceeds. -/
def connectWithFetchStart (apiId apiRoot apiToken apiName : Option Str)
    (isInitialAttemptForCurrentApi : Bool) (now : Str) (st : SessionSt) :
    SessionSt × Bool :=
  if optFalsy apiId || optFalsy apiRoot || optFalsy apiToken || optFalsy apiName then
    ({ st with
       uiConnectionStatus := UiStatus.idle
       events := addEventToLog
         { type := EvKind.log, data := Json.str (chars "API 配置无效，事件流禁用。"),
           instanceDetails := none, level := none,
           timestamp := Json.str now } st.events }, false)
  else
    let st1 := { st with controller := some false }
    let st2 :=
      if isInitialAttemptForCurrentApi then
        { st1 with
          isConnecting := true
          uiConnectionStatus := UiStatus.connecting
          events := addEventToLog
            { type := EvKind.log,
              data := Json.str (chars "正在初始化事件流 (fetch) 到 " ++
                getEventsUrl ((apiRoot).getD []) ++ chars " (携带 X-API-Key)..."),
              instanceDetails := none, level := none,
              timestamp := Json.str now } st1.events }
      else st1
    ({ st2 with reconnectTimeout := none }, true)

/-- The invalid-configuration branch of the main `useEffect`
(`EventLog.tsx` lines 331-345): when any identity field is missing or empty
the component clears the event log, drops both connection booleans, sets the
UI status to `idle`, aborts an existing non-aborted controller, clears a
pending reconnect timer and forgets the current API id. No diagnostic event
is appended on this path. -/
def onConfigInvalid (st : SessionSt) : SessionSt :=
  { st with
    events := []
    isConnected := false
    isConnecting := false
    uiConnectionStatus := UiStatus.idle
    controller := st.controller.map (fun _ => true)
    reconnectTimeout := none
    currentApiId := none }



theorem startsWithL_append_self (p y : Str) : startsWithL p (p ++ y) = true := by
  induction p with
  | nil => rfl
  | cons a ps ih => simp [startsWithL, ih]

theorem containsStr_append_left (p x s : Str) (h : containsStr p s = true) :
    containsStr p (x ++ s) = true := by
  induction x with
  | nil => simpa using h
  | cons c t ih => simp [containsStr, ih]

theorem containsStr_here (p y : Str) : containsStr p (p ++ y) = true := by
  cases p with
  | nil => cases y <;> simp [containsStr, startsWithL]
  | cons a ps =>
    simp only [List.cons_append, containsStr, Bool.or_eq_true]
    exact Or.inl (startsWithL_append_self (a :: ps) y)

theorem containsStr_segment (p x y : Str) : containsStr p (x ++ p ++ y) = true := by
  have := containsStr_append_left p x (p ++ y) (containsStr_here p y)
  simpa using this

theorem splitBuf_no_blocks (s : Str) (h : (splitBuf s).1 = []) : (splitBuf s).2 = s := by
  induction s using splitBuf.induct with
  | case1 => rfl
  | case2 c => rfl
  | case3 c d rest hcd ih =>
    obtain ⟨rfl, rfl⟩ := hcd
    simp [splitBuf] at h
  | case4 c d rest hcd r heq ih =>
    have hr : r = d :: rest := by
      have := ih (by rw [heq])
      rwa [heq] at this
    simp [splitBuf, hcd, heq, hr]
  | case5 c d rest hcd seg bs r heq ih =>
    simp [splitBuf, hcd, heq] at h

theorem splitBuf_append (a b : Str) :
    splitBuf (a ++ b) =
      ((splitBuf a).1 ++ (splitBuf ((splitBuf a).2 ++ b)).1,
       (splitBuf ((splitBuf a).2 ++ b)).2) := by
  induction a using splitBuf.induct with
  | case1 => simp [splitBuf]
  | case2 c => simp [splitBuf]
  | case3 c d rest hcd ih =>
    obtain ⟨rfl, rfl⟩ := hcd
    simp [splitBuf, ih]
  | case4 c d rest hcd r heq ih =>
    have hr : r = d :: rest := by
      have := splitBuf_no_blocks (d :: rest) (by rw [heq])
      rwa [heq] at this
    simp [splitBuf, hcd, heq, hr]
  | case5 c d rest hcd seg bs r heq ih =>
    rw [heq] at ih
    have lhs : splitBuf (c :: d :: rest ++ b) =
        ((c :: seg) :: (bs ++ (splitBuf (r ++ b)).1), (splitBuf (r ++ b)).2) := by
      have hdr : splitBuf (d :: (rest ++ b)) =
          (seg :: (bs ++ (splitBuf (r ++ b)).1), (splitBuf (r ++ b)).2) := by
        simpa using ih
      simp [splitBuf, hcd, hdr]
    simp only [List.cons_append] at lhs ⊢
    rw [lhs]
    simp [splitBuf, hcd, heq]

theorem splitBuf_blocks_iff (s : Str) :
    (splitBuf s).1 = [] ↔ containsStr (chars "\n\n") s = false := by
  induction s using splitBuf.induct with
  | case1 => simp [splitBuf, containsStr, startsWithL, chars]
  | case2 c => simp [splitBuf, containsStr, startsWithL, chars]
  | case3 c d rest hcd ih =>
    obtain ⟨rfl, rfl⟩ := hcd
    simp [splitBuf, containsStr, startsWithL, chars]
  | case4 c d rest hcd r heq ih =>
    rw [heq] at ih
    have hnows : containsStr (chars "\n\n") (d :: rest) = false := by simpa using ih
    have hsw : startsWithL (chars "\n\n") (c :: d :: rest) = false := by
      by_cases hc : c = '\n'
      · by_cases hd : d = '\n'
        · exact absurd ⟨hc, hd⟩ hcd
        · simp [chars, startsWithL, hc, Ne.symm hd]
      · simp [chars, startsWithL, Ne.symm hc]
    have hstep : containsStr (chars "\n\n") (c :: d :: rest) =
        (startsWithL (chars "\n\n") (c :: d :: rest) ||
         containsStr (chars "\n\n") (d :: rest)) := rfl
    rw [hstep, hsw, hnows]
    simp [splitBuf, hcd, heq]
  | case5 c d rest hcd seg bs r heq ih =>
    rw [heq] at ih
    have hnows : containsStr (chars "\n\n") (d :: rest) = true := by
      cases h : containsStr (chars "\n\n") (d :: rest)
      · rw [h] at ih
        simp at ih
      · rfl
    have hstep : containsStr (chars "\n\n") (c :: d :: rest) =
        (startsWithL (chars "\n\n") (c :: d :: rest) ||
         containsStr (chars "\n\n") (d :: rest)) := rfl
    rw [hstep, hnows]
    simp [splitBuf, hcd, heq]

theorem applyBlock_buffer_set (cdc : Codec) (now v : Str) (st : LoopState) (b : Str) :
    applyBlock cdc now { st with buffer := v } b =
      { applyBlock cdc now st b with buffer := v } := by
  rcases h : processSseMessageData cdc now b with ⟨oev, ab⟩
  cases oev <;> simp [applyBlock, h] <;> split <;> rfl

theorem foldl_applyBlock_buffer_set (cdc : Codec) (now v : Str) (st : LoopState)
    (bs : List Str) :
    List.foldl (applyBlock cdc now) { st with buffer := v } bs =
      { List.foldl (applyBlock cdc now) st bs with buffer := v } := by
  induction bs generalizing st with
  | nil => rfl
  | cons b rest ih => simp [List.foldl_cons, applyBlock_buffer_set, ih]

theorem processChunk_append (cdc : Codec) (now : Str) (st : LoopState) (a b : Str) :
    processChunk cdc now (processChunk cdc now st a) b =
      processChunk cdc now st (a ++ b) := by
  simp only [processChunk]
  rw [← List.append_assoc, splitBuf_append (st.buffer ++ a) b]
  simp [foldl_applyBlock_buffer_set, List.foldl_append]

/-- A non-status log line used in concrete scenarios. -/
def plainLogEv : InstanceEvent :=
  { type := EvKind.log, data := Json.str (chars "x"), instanceDetails := none,
    level := none, timestamp := Json.null }

/-- A status-keyword event (its payload contains `已连接`). -/
def connectedStatusEv : InstanceEvent :=
  { type := EvKind.log, data := Json.str (chars "事件流 (fetch) 已连接。"),
    instanceDetails := none, level := none, timestamp := Json.null }

/-- A full ring buffer of 200 non-status events. -/
def fullPlainLog : List InstanceEvent := List.replicate 200 plainLogEv

/-- C5: the ring buffer is bounded by 200 and newest-first — every insertion
yields at most 200 entries with the new event at the head, and an insertion
into a full 200-entry buffer (with no status filtering in play) drops
exactly the oldest entry. -/
theorem C5_ring_buffer_bound :
    (∀ (e : InstanceEvent) (prev : List InstanceEvent),
       (addEventToLog e prev).length ≤ 200) ∧
    (∀ (e : InstanceEvent) (prev : List InstanceEvent),
       (addEventToLog e prev).head? = some e) ∧
    (∀ (e : InstanceEvent) (prev : List InstanceEvent),
       isStatusData e.data = false → prev.length = 200 →
       addEventToLog e prev = e :: prev.dropLast) := by
  refine ⟨fun e prev => ?_, fun e prev => ?_, fun e prev hns hlen => ?_⟩
  · simp only [addEventToLog, List.length_cons]
    have : ∀ l : List InstanceEvent, (l.take 199).length ≤ 199 := by
      intro l
      simp [List.length_take]
    split <;> exact Nat.succ_le_succ (by apply this)
  · simp [addEventToLog]
  · simp only [addEventToLog, hns, Bool.false_eq_true, if_false]
    rw [List.dropLast_eq_take, hlen]

/-- C5 witness: inserting into a concrete full 200-entry buffer keeps the
bound and drops the oldest entry. -/
theorem C5_ring_buffer_bound_witness :
    (addEventToLog plainLogEv fullPlainLog).length ≤ 200 ∧
    addEventToLog plainLogEv fullPlainLog = plainLogEv :: fullPlainLog.dropLast :=
  ⟨C5_ring_buffer_bound.1 plainLogEv fullPlainLog,
   C5_ring_buffer_bound.2.2 plainLogEv fullPlainLog (by rfl) (by rfl)⟩

/-- C4 claims that inserting a status-keyword event leaves all previously
buffered non-status events untouched. This fails at the capacity bound: with
200 buffered non-status events, the `slice(0, 199)` step of `addEventToLog`
drops the oldest non-status entry as well, so the tail of the result is not
the previous buffer. -/
theorem C4_counterexample :
    isStatusData connectedStatusEv.data = true ∧
    (∀ e ∈ fullPlainLog, isStatusData e.data = false) ∧
    (addEventToLog connectedStatusEv fullPlainLog).tail ≠ fullPlainLog := by
  refine ⟨by rfl, ?_, ?_⟩
  · intro e he
    simp only [fullPlainLog] at he
    have he' : e = plainLogEv := List.eq_of_mem_replicate he
    rw [he']
    rfl
  · intro h
    have hlen := congrArg List.length h
    have h199 : (addEventToLog connectedStatusEv fullPlainLog).tail.length = 199 := by rfl
    have h200 : fullPlainLog.length = 200 := by rfl
    rw [h199, h200] at hlen
    exact absurd hlen (by decide)

/-- C4 (amended): inserting a status-keyword event removes every previously
buffered status-keyword event, places the new event at the head, and keeps
the previously buffered non-status events, in order, up to the ring-buffer
truncation to the newest 199 of them; whenever at most 199 non-status events
were buffered they are all kept untouched. -/
theorem C4_status_dedup (e : InstanceEvent) (prev : List InstanceEvent)
    (h : isStatusData e.data = true) :
    (addEventToLog e prev).head? = some e ∧
    (addEventToLog e prev).tail =
      (prev.filter (fun p => !(isStatusData p.data))).take 199 ∧
    (∀ p ∈ (addEventToLog e prev).tail, isStatusData p.data = false) ∧
    ((addEventToLog e prev).tail).Sublist prev ∧
    ((prev.filter (fun p => !(isStatusData p.data))).length ≤ 199 →
      (addEventToLog e prev).tail = prev.filter (fun p => !(isStatusData p.data))) := by
  have htail : (addEventToLog e prev).tail =
      (prev.filter (fun p => !(isStatusData p.data))).take 199 := by
    simp [addEventToLog, h]
  refine ⟨by simp [addEventToLog], htail, ?_, ?_, ?_⟩
  · intro p hp
    rw [htail] at hp
    have hmem := (List.take_sublist 199 _).subset hp
    have := (List.mem_filter.mp hmem).2
    simpa using this
  · rw [htail]
    exact ((List.take_sublist 199 _).trans (List.filter_sublist prev))
  · intro hle
    rw [htail]
    exact List.take_of_length_le hle

/-- C4 witness: a concrete buffer holding one plain entry and one stale
status entry; inserting a fresh status event drops the stale one and keeps
the plain one. -/
theorem C4_status_dedup_witness :
    isStatusData connectedStatusEv.data = true ∧
    (addEventToLog connectedStatusEv [plainLogEv, connectedStatusEv]).tail = [plainLogEv] := by
  constructor
  · rfl
  · have h := (C4_status_dedup connectedStatusEv [plainLogEv, connectedStatusEv] (by rfl)).2.1
    rw [h]
    rfl

theorem processSse_instance_parsed (cdc : Codec) (now : Str) (block : Str) (j : Json)
    (h1 : (frameFields block).1 = chars "instance")
    (h2 : (frameFields block).2 ≠ [])
    (h3 : cdc.parse ((frameFields block).2) = some j) :
    processSseMessageData cdc now block =
      (some { type := (classifyInstanceEvent cdc j).1,
              data := (classifyInstanceEvent cdc j).2.1,
              instanceDetails := getField j (chars "instance"),
              level := (classifyInstanceEvent cdc j).2.2.1,
              timestamp := jsTime j now }, (classifyInstanceEvent cdc j).2.2.2) := by
  have h2' : ((frameFields block).2).isEmpty = false := by
    cases hfe : (frameFields block).2 with
    | nil => exact absurd hfe h2
    | cons a l => rfl
  simp only [processSseMessageData, h1, h2', h3, beq_self_eq_true, Bool.not_false,
    Bool.and_true, if_true]

theorem processSse_instance_unparsed (cdc : Codec) (now : Str) (block : Str)
    (h1 : (frameFields block).1 = chars "instance")
    (h2 : (frameFields block).2 ≠ [])
    (h3 : cdc.parse ((frameFields block).2) = none) :
    processSseMessageData cdc now block =
      (some { type := EvKind.log,
              data := Json.str (chars "解析事件错误 (fetch): " ++ (frameFields block).2),
              instanceDetails := none, level := none,
              timestamp := Json.str now }, false) := by
  have h2' : ((frameFields block).2).isEmpty = false := by
    cases hfe : (frameFields block).2 with
    | nil => exact absurd hfe h2
    | cons a l => rfl
  simp only [processSseMessageData, h1, h2', h3, beq_self_eq_true, Bool.not_false,
    Bool.and_true, if_true]

/-- The parsed payload of the C1 example frame. -/
def helloLogJson : Json :=
  Json.obj [(chars "type", Json.str (chars "log")),
            (chars "logs", Json.str (chars "hello"))]

/-- A concrete stand-in for the browser `JSON.parse`, defined on the two
payloads exercised by concrete scenarios. -/
def stubParse : Str → Option Json := fun s =>
  if s = chars "\x7b\"type\":\"log\",\"logs\":\"hello\"\x7d" then some helloLogJson
  else if s = chars "\x7b\"type\":\"shutdown\"\x7d" then
    some (Json.obj [(chars "type", Json.str (chars "shutdown"))])
  else if s = chars "\x7b\"type\":\"create\",\"instance\":\x7b\"id\":\"1\"\x7d\x7d" then
    some (Json.obj [(chars "type", Json.str (chars "create")),
                    (chars "instance", Json.obj [(chars "id", Json.str (chars "1"))])])
  else if s = chars "\x7b\"type\":\"log\",\"logs\":\"a ERROR b\"\x7d" then
    some (Json.obj [(chars "type", Json.str (chars "log")),
                    (chars "logs", Json.str (chars "a ERROR b"))])
  else none

/-- Concrete codec for witnesses. -/
def stubCodec : Codec := { parse := stubParse, stringify := fun _ => [] }

/-- A fixed decode-time clock string. -/
def now0 : Str := chars "2025-01-01T00:00:00.000Z"

/-- Fresh read-loop state. -/
def initLoop : LoopState := { buffer := [], log := [], emitted := [], aborted := false }

/-- C1: the frame parser is insensitive to chunk boundaries (delivering text
in two chunks equals delivering their concatenation), a delivery containing
no `"\n\n"` separator emits nothing and retains all text in the buffer, and
the concrete split-mid-line example emits zero events after the first chunk
and exactly one `hello` log event once both chunks arrived. -/
theorem C1_chunked_frame_parsing (cdc : Codec) (now : Str)
    (hp : cdc.parse (chars "\x7b\"type\":\"log\",\"logs\":\"hello\"\x7d") = some helloLogJson) :
    (∀ (st : LoopState) (a b : Str),
       processChunk cdc now (processChunk cdc now st a) b =
         processChunk cdc now st (a ++ b)) ∧
    (∀ (st : LoopState) (s : Str),
       containsStr (chars "\n\n") (st.buffer ++ s) = false →
       (processChunk cdc now st s).emitted = st.emitted ∧
       (processChunk cdc now st s).buffer = st.buffer ++ s) ∧
    (runLoop cdc now initLoop
       [ReadResult.chunk (chars "event: instance\ndat")]).1.emitted = [] ∧
    (runLoop cdc now initLoop
       [ReadResult.chunk (chars "event: instance\ndat"),
        ReadResult.chunk
          (chars "a: \x7b\"type\":\"log\",\"logs\":\"hello\"\x7d\n\n")]).1.emitted =
      [{ type := EvKind.log, data := Json.str (chars "hello"), instanceDetails := none,
         level := none, timestamp := Json.str now }] := by
  have hnosep : ∀ (st : LoopState) (s : Str),
      containsStr (chars "\n\n") (st.buffer ++ s) = false →
      processChunk cdc now st s = { st with buffer := st.buffer ++ s } := by
    intro st s h
    have hb : (splitBuf (st.buffer ++ s)).1 = [] := (splitBuf_blocks_iff _).mpr h
    have hr := splitBuf_no_blocks _ hb
    simp [processChunk, hb, hr]
  have hchunk1 : processChunk cdc now initLoop (chars "event: instance\ndat") =
      { initLoop with buffer := chars "event: instance\ndat" } := by
    apply hnosep
    rfl
  have hblock : processSseMessageData cdc now
      (chars "event: instance\ndata: \x7b\"type\":\"log\",\"logs\":\"hello\"\x7d") =
      (some { type := EvKind.log, data := Json.str (chars "hello"),
              instanceDetails := none, level := none,
              timestamp := Json.str now }, false) := by
    rw [processSse_instance_parsed cdc now _ helloLogJson (by rfl) (by decide) (by rw [show (frameFields (chars "event: instance\ndata: \x7b\"type\":\"log\",\"logs\":\"hello\"\x7d")).2 = chars "\x7b\"type\":\"log\",\"logs\":\"hello\"\x7d" from rfl]; exact hp)]
    rfl
  refine ⟨processChunk_append cdc now, ?_, ?_, ?_⟩
  · intro st s h
    rw [hnosep st s h]
    exact ⟨rfl, rfl⟩
  · have : runLoop cdc now initLoop [ReadResult.chunk (chars "event: instance\ndat")] =
        (processChunk cdc now initLoop (chars "event: instance\ndat"),
         LoopOutcome.ranOut) := rfl
    rw [this, hchunk1]
    rfl
  · have hstep : runLoop cdc now initLoop
        [ReadResult.chunk (chars "event: instance\ndat"),
         ReadResult.chunk (chars "a: \x7b\"type\":\"log\",\"logs\":\"hello\"\x7d\n\n")] =
        (processChunk cdc now
          (processChunk cdc now initLoop (chars "event: instance\ndat"))
          (chars "a: \x7b\"type\":\"log\",\"logs\":\"hello\"\x7d\n\n"), LoopOutcome.ranOut) := by
      rw [hchunk1]
      rfl
    rw [hstep, hchunk1]
    have hsplit : splitBuf (chars "event: instance\ndat" ++
        chars "a: \x7b\"type\":\"log\",\"logs\":\"hello\"\x7d\n\n") =
        ([chars "event: instance\ndata: \x7b\"type\":\"log\",\"logs\":\"hello\"\x7d"], []) := by
      rfl
    simp only [processChunk, hsplit, List.foldl_cons, List.foldl_nil]
    simp only [applyBlock, hblock]
    rw [if_pos (show trimL (chars "event: instance\ndata: \x7b\"type\":\"log\",\"logs\":\"hello\"\x7d") ≠ [] by decide)]
    simp [initLoop]

/-- C1 witness: the concrete two-chunk scenario under the stub codec. -/
theorem C1_chunked_frame_parsing_witness :
    (runLoop stubCodec now0 initLoop
       [ReadResult.chunk (chars "event: instance\ndat")]).1.emitted = [] ∧
    (runLoop stubCodec now0 initLoop
       [ReadResult.chunk (chars "event: instance\ndat"),
        ReadResult.chunk
          (chars "a: \x7b\"type\":\"log\",\"logs\":\"hello\"\x7d\n\n")]).1.emitted =
      [{ type := EvKind.log, data := Json.str (chars "hello"), instanceDetails := none,
         level := none, timestamp := Json.str now0 }] := by
  have h := C1_chunked_frame_parsing stubCodec now0 (by rfl)
  exact ⟨h.2.2.1, h.2.2.2⟩

/-- C7: an `instance` frame whose non-empty data line fails JSON parsing
yields exactly one log-kind event whose payload embeds the original
malformed text; the parser returns normally (total function, no abort
signal), and processing such a block leaves the loop able to continue:
state is updated only by appending that one event. -/
theorem C7_malformed_json_recovery (cdc : Codec) (now : Str) (block : Str)
    (h1 : (frameFields block).1 = chars "instance")
    (h2 : (frameFields block).2 ≠ [])
    (h3 : cdc.parse ((frameFields block).2) = none)
    (h4 : trimL block ≠ []) :
    processSseMessageData cdc now block =
      (some { type := EvKind.log,
              data := Json.str (chars "解析事件错误 (fetch): " ++ (frameFields block).2),
              instanceDetails := none, level := none,
              timestamp := Json.str now }, false) ∧
    containsStr ((frameFields block).2)
      (chars "解析事件错误 (fetch): " ++ (frameFields block).2) = true ∧
    (∀ st : LoopState,
       applyBlock cdc now st block =
         { st with
           log := addEventToLog
             { type := EvKind.log,
               data := Json.str (chars "解析事件错误 (fetch): " ++ (frameFields block).2),
               instanceDetails := none, level := none,
               timestamp := Json.str now } st.log
           emitted := st.emitted ++
             [{ type := EvKind.log,
                data := Json.str (chars "解析事件错误 (fetch): " ++ (frameFields block).2),
                instanceDetails := none, level := none,
                timestamp := Json.str now }]
           aborted := st.aborted }) := by
  have hpr := processSse_instance_unparsed cdc now block h1 h2 h3
  refine ⟨hpr, ?_, ?_⟩
  · have := containsStr_segment ((frameFields block).2) (chars "解析事件错误 (fetch): ") []
    simpa using this
  · intro st
    simp [applyBlock, h4, hpr]

/-- C7 witness: a concrete malformed frame under the stub codec. -/
theorem C7_malformed_json_recovery_witness :
    processSseMessageData stubCodec now0 (chars "event: instance\ndata: nonjson") =
      (some { type := EvKind.log,
              data := Json.str (chars "解析事件错误 (fetch): nonjson"),
              instanceDetails := none, level := none,
              timestamp := Json.str now0 }, false) ∧
    containsStr (chars "nonjson") (chars "解析事件错误 (fetch): nonjson") = true := by
  have h := C7_malformed_json_recovery stubCodec now0
    (chars "event: instance\ndata: nonjson") (by rfl) (by decide) (by rfl) (by decide)
  exact ⟨h.1, h.2.1⟩

/-- C6: an `instance` frame with valid JSON whose `type` is one of
initial/create/update/delete decodes to the same kind; the payload is the
embedded `instance` object when one is present, else the raw `data` field
when that is present (truthy), else an empty object. -/
theorem C6_lifecycle_classification (cdc : Codec) (now : Str) (block : Str)
    (j : Json) (t : Str) (k : EvKind)
    (h1 : (frameFields block).1 = chars "instance")
    (h2 : (frameFields block).2 ≠ [])
    (h3 : cdc.parse ((frameFields block).2) = some j)
    (ht : getField j (chars "type") = some (Json.str t))
    (hk : lifecycleKind t = some k) :
    ∃ ev, processSseMessageData cdc now block = (some ev, false) ∧
      ev.type = k ∧
      (∀ kvs, getField j (chars "instance") = some (Json.obj kvs) →
        ev.data = Json.obj kvs) ∧
      (getField j (chars "instance") = none →
        ∀ d, getField j (chars "data") = some d → jsTruthy d = true → ev.data = d) ∧
      (getField j (chars "instance") = none → getField j (chars "data") = none →
        ev.data = Json.obj []) := by
  have hcls : classifyInstanceEvent cdc j =
      (k,
       (if jsTruthyOpt (getField j (chars "instance")) then
          (getField j (chars "instance")).getD Json.null
        else if jsTruthyOpt (getField j (chars "data")) then
          (getField j (chars "data")).getD Json.null
        else Json.obj []),
       none, false) := by
    simp only [classifyInstanceEvent, ht, hk]
  refine ⟨{ type := (classifyInstanceEvent cdc j).1,
            data := (classifyInstanceEvent cdc j).2.1,
            instanceDetails := getField j (chars "instance"),
            level := (classifyInstanceEvent cdc j).2.2.1,
            timestamp := jsTime j now }, ?_, ?_, ?_, ?_, ?_⟩
  · rw [processSse_instance_parsed cdc now block j h1 h2 h3]
    simp [hcls]
  · simp [hcls]
  · intro kvs hi
    simp [hcls, hi, jsTruthyOpt, jsTruthy]
  · intro hi d hd htr
    simp [hcls, hi, hd, jsTruthyOpt, htr]
  · intro hi hd
    simp [hcls, hi, hd, jsTruthyOpt]

/-- C6 witness: a concrete `create` frame with an embedded instance object. -/
theorem C6_lifecycle_classification_witness :
    ((processSseMessageData stubCodec now0
        (chars "event: instance\ndata: \x7b\"type\":\"create\",\"instance\":\x7b\"id\":\"1\"\x7d\x7d")).1.map
      (fun e => (e.type, e.data))) =
      some (EvKind.create, Json.obj [(chars "id", Json.str (chars "1"))]) := by
  obtain ⟨ev, hpr, hty, hi, _, _⟩ := C6_lifecycle_classification stubCodec now0
    (chars "event: instance\ndata: \x7b\"type\":\"create\",\"instance\":\x7b\"id\":\"1\"\x7d\x7d")
    (Json.obj [(chars "type", Json.str (chars "create")),
               (chars "instance", Json.obj [(chars "id", Json.str (chars "1"))])])
    (chars "create") EvKind.create
    (by rfl) (by decide) (by rfl) (by rfl) (by rfl)
  rw [hpr]
  simp [hty, hi [(chars "id", Json.str (chars "1"))] (by rfl)]

/-- C10: for every successfully parsed `instance` frame, the decoded event
carries the JSON's `instance` field in `instanceDetails` — regardless of the
decoded kind, since the field is captured before the type switch — and
`instanceDetails` is absent exactly when the JSON has no `instance` field. -/
theorem C10_instance_details (cdc : Codec) (now : Str) (block : Str) (j : Json)
    (h1 : (frameFields block).1 = chars "instance")
    (h2 : (frameFields block).2 ≠ [])
    (h3 : cdc.parse ((frameFields block).2) = some j) :
    ((processSseMessageData cdc now block).1.map (fun e => e.instanceDetails)) =
      some (getField j (chars "instance")) ∧
    (∀ v, getField j (chars "instance") = some v →
      ((processSseMessageData cdc now block).1.map (fun e => e.instanceDetails)) =
        some (some v)) ∧
    (getField j (chars "instance") = none →
      ((processSseMessageData cdc now block).1.map (fun e => e.instanceDetails)) =
        some none) := by
  have h := processSse_instance_parsed cdc now block j h1 h2 h3
  refine ⟨by rw [h]; rfl, ?_, ?_⟩
  · intro v hv
    rw [h, hv]
    rfl
  · intro hv
    rw [h, hv]
    rfl

/-- C10 witness: the create frame carries its embedded instance object even
as `instanceDetails`, and the shutdown frame (kind `shutdown`, no `instance`
field) carries none. -/
theorem C10_instance_details_witness :
    ((processSseMessageData stubCodec now0
        (chars "event: instance\ndata: \x7b\"type\":\"create\",\"instance\":\x7b\"id\":\"1\"\x7d\x7d")).1.map
      (fun e => e.instanceDetails)) =
      some (some (Json.obj [(chars "id", Json.str (chars "1"))])) ∧
    ((processSseMessageData stubCodec now0
        (chars "event: instance\ndata: \x7b\"type\":\"shutdown\"\x7d")).1.map
      (fun e => e.instanceDetails)) = some none := by
  have ha := C10_instance_details stubCodec now0
    (chars "event: instance\ndata: \x7b\"type\":\"create\",\"instance\":\x7b\"id\":\"1\"\x7d\x7d")
    (Json.obj [(chars "type", Json.str (chars "create")),
               (chars "instance", Json.obj [(chars "id", Json.str (chars "1"))])])
    (by rfl) (by decide) (by rfl)
  have hb := C10_instance_details stubCodec now0
    (chars "event: instance\ndata: \x7b\"type\":\"shutdown\"\x7d")
    (Json.obj [(chars "type", Json.str (chars "shutdown"))])
    (by rfl) (by decide) (by rfl)
  exact ⟨ha.2.1 _ (by rfl), hb.2.2 (by rfl)⟩

theorem processSse_generic (cdc : Codec) (now : Str) (block : Str)
    (h1 : (frameFields block).1 ≠ chars "instance")
    (h2 : (frameFields block).2 ≠ [])
    (h3 : startsWithL (chars "retry:") ((frameFields block).2) = false) :
    processSseMessageData cdc now block =
      (some { type := EvKind.log,
              data := Json.str (chars "通用消息 (fetch): " ++ (frameFields block).2),
              instanceDetails := none, level := none,
              timestamp := Json.str now }, false) := by
  have h2' : ((frameFields block).2).isEmpty = false := by
    cases hfe : (frameFields block).2 with
    | nil => exact absurd hfe h2
    | cons a l => rfl
  have h1' : ((frameFields block).1 == chars "instance") = false := by
    rw [beq_eq_false_iff_ne]
    exact h1
  simp only [processSseMessageData, h1', h2', h3, Bool.false_and, if_false,
    Bool.not_false, if_true, Bool.false_eq_true]

/-- C8 claims level extraction happens whenever the resulting payload is a
string, regardless of kind. Counterexample: a generic (non-`instance`)
message whose payload string contains the whole word `ERROR` — the extractor
would find `ERROR`, but the produced event carries no level. -/
theorem C8_counterexample :
    processSseMessageData stubCodec now0 (chars "data: ERROR oops") =
      (some { type := EvKind.log,
              data := Json.str (chars "通用消息 (fetch): ERROR oops"),
              instanceDetails := none, level := none,
              timestamp := Json.str now0 }, false) ∧
    parseLogLevel (chars "通用消息 (fetch): ERROR oops") = some (chars "ERROR") :=
  ⟨by rfl, by rfl⟩

/-- C8 (amended): level extraction is applied only in the two classification
branches that compute it — an `instance` frame of type `log` (string payload
from `.logs`) and the unknown-type branch — and never on the lifecycle,
shutdown, JSON-parse-error, or generic non-`instance` paths, even when those
events carry a string payload containing a level token. -/
theorem C8_level_extraction_scope (cdc : Codec) (now : Str) :
    (∀ (block : Str) (j : Json) (s : Str),
       (frameFields block).1 = chars "instance" → (frameFields block).2 ≠ [] →
       cdc.parse ((frameFields block).2) = some j →
       getField j (chars "type") = some (Json.str (chars "log")) →
       getField j (chars "logs") = some (Json.str s) → s ≠ [] →
       ((processSseMessageData cdc now block).1.map (fun e => (e.level, e.data))) =
         some (parseLogLevel s, Json.str s)) ∧
    (∀ (block : Str) (j : Json) (t : Str) (k : EvKind),
       (frameFields block).1 = chars "instance" → (frameFields block).2 ≠ [] →
       cdc.parse ((frameFields block).2) = some j →
       getField j (chars "type") = some (Json.str t) → lifecycleKind t = some k →
       ((processSseMessageData cdc now block).1.map (fun e => e.level)) = some none) ∧
    (∀ (block : Str) (j : Json),
       (frameFields block).1 = chars "instance" → (frameFields block).2 ≠ [] →
       cdc.parse ((frameFields block).2) = some j →
       getField j (chars "type") = some (Json.str (chars "shutdown")) →
       ((processSseMessageData cdc now block).1.map (fun e => (e.level, e.data))) =
         some (none, Json.str (chars "主控服务即将关闭。事件流已停止。"))) ∧
    (∀ (block : Str),
       (frameFields block).1 = chars "instance" → (frameFields block).2 ≠ [] →
       cdc.parse ((frameFields block).2) = none →
       ((processSseMessageData cdc now block).1.map (fun e => e.level)) = some none) ∧
    (∀ (block : Str),
       (frameFields block).1 ≠ chars "instance" → (frameFields block).2 ≠ [] →
       startsWithL (chars "retry:") ((frameFields block).2) = false →
       ((processSseMessageData cdc now block).1.map (fun e => (e.level, e.data))) =
         some (none, Json.str (chars "通用消息 (fetch): " ++ (frameFields block).2))) := by
  refine ⟨?_, ?_, ?_, ?_, ?_⟩
  · intro block j s h1 h2 h3 ht hl hs
    have hse : s.isEmpty = false := by
      cases s with
      | nil => exact absurd rfl hs
      | cons a l => rfl
    have e1 : lifecycleKind (chars "log") = none := rfl
    have e2 : (chars "log" == chars "log") = true := rfl
    have e3 : jsTruthyOpt (some (Json.str s)) = !s.isEmpty := rfl
    have hcls : classifyInstanceEvent cdc j = (EvKind.log, Json.str s, parseLogLevel s, false) := by
      simp only [classifyInstanceEvent, ht, hl, e1, e2, e3, hse, if_true, Bool.not_false,
        Option.getD_some]
    rw [processSse_instance_parsed cdc now block j h1 h2 h3]
    simp [hcls]
  · intro block j t k h1 h2 h3 ht hk
    have hcls : (classifyInstanceEvent cdc j).2.2.1 = none := by
      simp [classifyInstanceEvent, ht, hk]
    rw [processSse_instance_parsed cdc now block j h1 h2 h3]
    simp [hcls]
  · intro block j h1 h2 h3 ht
    have e1 : lifecycleKind (chars "shutdown") = none := rfl
    have e2 : (chars "shutdown" == chars "log") = false := rfl
    have e3 : (chars "shutdown" == chars "shutdown") = true := rfl
    have hcls : classifyInstanceEvent cdc j =
        (EvKind.shutdown, Json.str (chars "主控服务即将关闭。事件流已停止。"), none, true) := by
      simp only [classifyInstanceEvent, ht, e1, e2, e3, if_false, if_true, Bool.false_eq_true]
    rw [processSse_instance_parsed cdc now block j h1 h2 h3]
    simp [hcls]
  · intro block h1 h2 h3
    rw [processSse_instance_unparsed cdc now block h1 h2 h3]
    rfl
  · intro block h1 h2 h3
    rw [processSse_generic cdc now block h1 h2 h3]
    rfl

/-- C8 witness: the `log`-typed frame gets its level extracted (`ERROR`
found in `a ERROR b`), while the shutdown frame's string payload carries no
level. -/
theorem C8_level_extraction_scope_witness :
    ((processSseMessageData stubCodec now0
        (chars "event: instance\ndata: \x7b\"type\":\"log\",\"logs\":\"a ERROR b\"\x7d")).1.map
      (fun e => (e.level, e.data))) =
      some (some (chars "ERROR"), Json.str (chars "a ERROR b")) ∧
    ((processSseMessageData stubCodec now0
        (chars "event: instance\ndata: \x7b\"type\":\"shutdown\"\x7d")).1.map
      (fun e => (e.level, e.data))) =
      some (none, Json.str (chars "主控服务即将关闭。事件流已停止。")) := by
  have h := C8_level_extraction_scope stubCodec now0
  constructor
  · have ha := h.1
      (chars "event: instance\ndata: \x7b\"type\":\"log\",\"logs\":\"a ERROR b\"\x7d")
      (Json.obj [(chars "type", Json.str (chars "log")),
                 (chars "logs", Json.str (chars "a ERROR b"))])
      (chars "a ERROR b") (by rfl) (by decide) (by rfl) (by rfl) (by rfl) (by decide)
    exact ha
  · exact h.2.2.1
      (chars "event: instance\ndata: \x7b\"type\":\"shutdown\"\x7d")
      (Json.obj [(chars "type", Json.str (chars "shutdown"))])
      (by rfl) (by decide) (by rfl) (by rfl)

/-- A session state whose current controller has been aborted. -/
def abortedSession : SessionSt :=
  { events := [], isConnected := false, isConnecting := false,
    uiConnectionStatus := UiStatus.disconnected, controller := some true,
    reconnectTimeout := none, retryCount := 0,
    hasLoggedInitialConnection := false, currentApiId := none }

/-- C2 claims that a `shutdown` frame schedules a reconnection exactly like
any other disconnect. Counterexample: after a shutdown frame the read is
aborted, so when the stream then ends the loop stops silently — the outcome
is `stopped`, not the `reconnect` outcome that an ordinary server-side close
(`done` without abort) produces. -/
theorem C2_counterexample :
    (runLoop stubCodec now0 initLoop
       [ReadResult.chunk (chars "event: instance\ndata: \x7b\"type\":\"shutdown\"\x7d\n\n"),
        ReadResult.done]).2 = LoopOutcome.stopped ∧
    (runLoop stubCodec now0 initLoop
       [ReadResult.chunk (chars "event: instance\ndata: \x7b\"type\":\"shutdown\"\x7d\n\n"),
        ReadResult.done]).2 ≠ LoopOutcome.reconnect (chars "服务器关闭") ∧
    (runLoop stubCodec now0 initLoop
       [ReadResult.chunk (chars "event: instance\ndata: \x7b\"type\":\"shutdown\"\x7d\n\n"),
        ReadResult.done]).1.aborted = true ∧
    (runLoop stubCodec now0 initLoop [ReadResult.done]).2 =
      LoopOutcome.reconnect (chars "服务器关闭") := by
  refine ⟨by rfl, ?_, by rfl, by rfl⟩
  intro h
  have h2 : LoopOutcome.stopped = LoopOutcome.reconnect (chars "服务器关闭") := by
    rw [← h]
    rfl
  cases h2

/-- C2 (amended): a `shutdown` frame produces the fixed-message
shutdown-kind event and flips the abort flag; because the abort flag is
checked before every read outcome and `scheduleReconnect` returns
immediately for an aborted controller, no reconnection is scheduled after a
shutdown — unlike other disconnects. -/
theorem C2_shutdown_aborts (cdc : Codec) (now : Str) (block : Str) (j : Json)
    (h1 : (frameFields block).1 = chars "instance")
    (h2 : (frameFields block).2 ≠ [])
    (h3 : cdc.parse ((frameFields block).2) = some j)
    (ht : getField j (chars "type") = some (Json.str (chars "shutdown"))) :
    processSseMessageData cdc now block =
      (some { type := EvKind.shutdown,
              data := Json.str (chars "主控服务即将关闭。事件流已停止。"),
              instanceDetails := getField j (chars "instance"), level := none,
              timestamp := jsTime j now }, true) ∧
    (∀ st : LoopState, trimL block ≠ [] →
       (applyBlock cdc now st block).aborted = true) ∧
    (∀ (st : LoopState) (rs : List ReadResult), st.aborted = true →
       (runLoop cdc now st rs).2 = LoopOutcome.ranOut ∨
       (runLoop cdc now st rs).2 = LoopOutcome.stopped) ∧
    (∀ (apiRoot : Option Str) (now2 reason : Str) (st : SessionSt),
       st.controller = some true →
       scheduleReconnect apiRoot now2 reason st = st) := by
  have e1 : lifecycleKind (chars "shutdown") = none := rfl
  have e2 : (chars "shutdown" == chars "log") = false := rfl
  have e3 : (chars "shutdown" == chars "shutdown") = true := rfl
  have hcls : classifyInstanceEvent cdc j =
      (EvKind.shutdown, Json.str (chars "主控服务即将关闭。事件流已停止。"), none, true) := by
    simp only [classifyInstanceEvent, ht, e1, e2, e3, if_false, if_true, Bool.false_eq_true]
  have hpr : processSseMessageData cdc now block =
      (some { type := EvKind.shutdown,
              data := Json.str (chars "主控服务即将关闭。事件流已停止。"),
              instanceDetails := getField j (chars "instance"), level := none,
              timestamp := jsTime j now }, true) := by
    rw [processSse_instance_parsed cdc now block j h1 h2 h3]
    simp [hcls]
  refine ⟨hpr, ?_, ?_, ?_⟩
  · intro st htr
    simp [applyBlock, htr, hpr]
  · intro st rs hab
    cases rs with
    | nil => exact Or.inl rfl
    | cons r rs2 => exact Or.inr (by simp [runLoop, hab])
  · intro apiRoot now2 reason st hc
    simp [scheduleReconnect, hc]

/-- C2 witness: the concrete shutdown frame under the stub codec, and a
concrete aborted session on which `scheduleReconnect` is a no-op. -/
theorem C2_shutdown_aborts_witness :
    processSseMessageData stubCodec now0
      (chars "event: instance\ndata: \x7b\"type\":\"shutdown\"\x7d") =
      (some { type := EvKind.shutdown,
              data := Json.str (chars "主控服务即将关闭。事件流已停止。"),
              instanceDetails := none, level := none,
              timestamp := Json.str now0 }, true) ∧
    scheduleReconnect (some (chars "http://a")) now0 (chars "boom") abortedSession =
      abortedSession := by
  have h := C2_shutdown_aborts stubCodec now0
    (chars "event: instance\ndata: \x7b\"type\":\"shutdown\"\x7d")
    (Json.obj [(chars "type", Json.str (chars "shutdown"))])
    (by rfl) (by decide) (by rfl) (by rfl)
  exact ⟨h.1, h.2.2.2 (some (chars "http://a")) now0 (chars "boom") abortedSession (by rfl)⟩

/-- C3: for a non-cancelled disconnection (controller absent or not
aborted), `scheduleReconnect` increments the retry counter, (re)sets the
reconnect timer to the fixed 5000 ms delay, stays silent on the first retry,
and from the second consecutive retry on appends exactly one error
diagnostic naming the target endpoint and the attempt number — with the
reason truncated to its first 100 characters and a CORS/network hint when
the failure text suggests it, on the generic-failure branch. A cancelled
(aborted) loop never reaches the reconnect outcome at all. -/
theorem C3_reconnect_policy (apiRoot : Str) (now reason : Str) (st : SessionSt)
    (hc : st.controller = none ∨ st.controller = some false) :
    (scheduleReconnect (some apiRoot) now reason st).retryCount = st.retryCount + 1 ∧
    (scheduleReconnect (some apiRoot) now reason st).reconnectTimeout =
      some RECONNECT_DELAY_MS ∧
    RECONNECT_DELAY_MS = 5000 ∧
    (st.retryCount = 0 →
      (scheduleReconnect (some apiRoot) now reason st).events = st.events) ∧
    (1 ≤ st.retryCount → ∃ msg : Str,
      (scheduleReconnect (some apiRoot) now reason st).events =
        addEventToLog
          { type := EvKind.log, data := Json.str msg, instanceDetails := none,
            level := some (chars "ERROR"), timestamp := Json.str now } st.events ∧
      containsStr (getEventsUrl apiRoot) msg = true ∧
      containsStr (natChars (st.retryCount + 1)) msg = true ∧
      (startsWithL (chars "服务器关闭") reason = false →
        containsStr (reason.take 100) msg = true ∧
        (corsSuspected reason = true → containsStr corsHintText msg = true))) ∧
    (∀ (cdc : Codec) (lnow : Str) (ls : LoopState) (rs : List ReadResult) (r : Str),
      ls.aborted = true → (runLoop cdc lnow ls rs).2 ≠ LoopOutcome.reconnect r) := by
  have hng : (match st.controller with | some b => b | none => false) = false := by
    rcases hc with h | h <;> simp [h]
  refine ⟨by simp [scheduleReconnect, hng], by simp [scheduleReconnect, hng], rfl,
    ?_, ?_, ?_⟩
  · intro h0
    simp [scheduleReconnect, hng, h0]
  · intro hr
    have hgt : st.retryCount + 1 > 1 := by omega
    by_cases hsw : startsWithL (chars "服务器关闭") reason = true
    · refine ⟨chars "事件流连接已由服务器关闭。" ++ natChars (RECONNECT_DELAY_MS / 1000) ++
        chars "秒后尝试第 " ++ natChars (st.retryCount + 1) ++ chars " 次重连... (目标: " ++
        getEventsUrl apiRoot ++ chars ")", ?_, ?_, ?_, ?_⟩
      · simp [scheduleReconnect, hng, hsw, hgt]
      · have := containsStr_segment (getEventsUrl apiRoot)
          (chars "事件流连接已由服务器关闭。" ++ natChars (RECONNECT_DELAY_MS / 1000) ++
           chars "秒后尝试第 " ++ natChars (st.retryCount + 1) ++ chars " 次重连... (目标: ")
          (chars ")")
        simpa [List.append_assoc] using this
      · have := containsStr_segment (natChars (st.retryCount + 1))
          (chars "事件流连接已由服务器关闭。" ++ natChars (RECONNECT_DELAY_MS / 1000) ++
           chars "秒后尝试第 ")
          (chars " 次重连... (目标: " ++ getEventsUrl apiRoot ++ chars ")")
        simpa [List.append_assoc] using this
      · intro hsw2
        rw [hsw] at hsw2
        cases hsw2
    · have hsw' : startsWithL (chars "服务器关闭") reason = false := by
        cases h : startsWithL (chars "服务器关闭") reason
        · rfl
        · exact absurd h hsw
      refine ⟨chars "无法建立 SSE 连接 (fetch) 到 " ++ getEventsUrl apiRoot ++
        chars ". 原因: " ++ reason.take 100 ++ chars "... " ++
        (if corsSuspected reason then corsHintText else []) ++ chars " " ++
        natChars (RECONNECT_DELAY_MS / 1000) ++ chars "秒后尝试第 " ++
        natChars (st.retryCount + 1) ++ chars " 次重连...", ?_, ?_, ?_, ?_⟩
      · simp [scheduleReconnect, hng, hsw', hgt]
      · have := containsStr_segment (getEventsUrl apiRoot)
          (chars "无法建立 SSE 连接 (fetch) 到 ")
          (chars ". 原因: " ++ reason.take 100 ++ chars "... " ++
           (if corsSuspected reason then corsHintText else []) ++ chars " " ++
           natChars (RECONNECT_DELAY_MS / 1000) ++ chars "秒后尝试第 " ++
           natChars (st.retryCount + 1) ++ chars " 次重连...")
        simpa [List.append_assoc] using this
      · have := containsStr_segment (natChars (st.retryCount + 1))
          (chars "无法建立 SSE 连接 (fetch) 到 " ++ getEventsUrl apiRoot ++
           chars ". 原因: " ++ reason.take 100 ++ chars "... " ++
           (if corsSuspected reason then corsHintText else []) ++ chars " " ++
           natChars (RECONNECT_DELAY_MS / 1000) ++ chars "秒后尝试第 ")
          (chars " 次重连...")
        simpa [List.append_assoc] using this
      · intro _
        constructor
        · have := containsStr_segment (reason.take 100)
            (chars "无法建立 SSE 连接 (fetch) 到 " ++ getEventsUrl apiRoot ++
             chars ". 原因: ")
            (chars "... " ++ (if corsSuspected reason then corsHintText else []) ++
             chars " " ++ natChars (RECONNECT_DELAY_MS / 1000) ++ chars "秒后尝试第 " ++
             natChars (st.retryCount + 1) ++ chars " 次重连...")
          simpa [List.append_assoc] using this
        · intro hcs
          rw [if_pos hcs]
          have := containsStr_segment corsHintText
            (chars "无法建立 SSE 连接 (fetch) 到 " ++ getEventsUrl apiRoot ++
             chars ". 原因: " ++ reason.take 100 ++ chars "... ")
            (chars " " ++ natChars (RECONNECT_DELAY_MS / 1000) ++ chars "秒后尝试第 " ++
             natChars (st.retryCount + 1) ++ chars " 次重连...")
          simpa [List.append_assoc] using this
  · intro cdc lnow ls rs r hab
    cases rs with
    | nil => simp [runLoop]
    | cons r2 rs2 => simp [runLoop, hab]

/-- A session one silent retry deep, with a live (non-aborted) controller. -/
def retry1Session : SessionSt :=
  { events := [], isConnected := false, isConnecting := false,
    uiConnectionStatus := UiStatus.disconnected, controller := some false,
    reconnectTimeout := none, retryCount := 1,
    hasLoggedInitialConnection := true, currentApiId := some (chars "a") }

/-- C3 witness: the second consecutive failure (retry counter 1) on a
concrete fetch failure appends one ERROR diagnostic and re-arms the 5000 ms
timer. -/
theorem C3_reconnect_policy_witness :
    (scheduleReconnect (some (chars "http://h")) now0 (chars "Failed to fetch")
      retry1Session).retryCount = 2 ∧
    (scheduleReconnect (some (chars "http://h")) now0 (chars "Failed to fetch")
      retry1Session).reconnectTimeout = some 5000 ∧
    ((scheduleReconnect (some (chars "http://h")) now0 (chars "Failed to fetch")
      retry1Session).events.head?.map (fun e => (e.type, e.level))) =
      some (EvKind.log, some (chars "ERROR")) := by
  have h := C3_reconnect_policy (chars "http://h") now0 (chars "Failed to fetch")
    retry1Session (Or.inr rfl)
  refine ⟨h.1, h.2.1, ?_⟩
  obtain ⟨msg, hev, _, _, _⟩ := h.2.2.2.2.1 (by decide)
  rw [hev]
  rfl

/-- A connected session with one buffered event, a pending timer and a live
controller. -/
def liveSession : SessionSt :=
  { events := [plainLogEv], isConnected := true, isConnecting := false,
    uiConnectionStatus := UiStatus.connected, controller := some false,
    reconnectTimeout := some 5000, retryCount := 3,
    hasLoggedInitialConnection := true, currentApiId := some (chars "a") }

/-- C9 claims that entering idle emits exactly one feed-disabled diagnostic.
Counterexample: the invalid-configuration branch of the effect clears the
event log and appends nothing — after the transition the log is empty, so it
does not hold exactly one diagnostic. -/
theorem C9_counterexample :
    (onConfigInvalid liveSession).uiConnectionStatus = UiStatus.idle ∧
    (onConfigInvalid liveSession).events = [] ∧
    (onConfigInvalid liveSession).events.length ≠ 1 :=
  ⟨rfl, rfl, by decide⟩

/-- C9 (amended): when the identity becomes invalid the session enters
`idle` from any state, aborts an existing controller, clears the pending
reconnect timer and the event log, forgets the API id, and emits no
diagnostic; the feed-disabled diagnostic is appended (and the attempt
refused, status idle) only if a connection attempt runs while the identity
is invalid — a path the effect itself does not take on idle entry. -/
theorem C9_idle_entry (st : SessionSt) :
    (onConfigInvalid st).uiConnectionStatus = UiStatus.idle ∧
    (onConfigInvalid st).events = [] ∧
    (onConfigInvalid st).reconnectTimeout = none ∧
    (onConfigInvalid st).controller = st.controller.map (fun _ => true) ∧
    (onConfigInvalid st).currentApiId = none ∧
    (∀ (apiId apiRoot apiToken apiName : Option Str) (isInit : Bool)
       (now2 : Str) (st2 : SessionSt),
       (optFalsy apiId || optFalsy apiRoot || optFalsy apiToken ||
        optFalsy apiName) = true →
       (connectWithFetchStart apiId apiRoot apiToken apiName isInit now2 st2).2 =
         false ∧
       (connectWithFetchStart apiId apiRoot apiToken apiName isInit now2
         st2).1.uiConnectionStatus = UiStatus.idle ∧
       (connectWithFetchStart apiId apiRoot apiToken apiName isInit now2
         st2).1.events =
         addEventToLog
           { type := EvKind.log, data := Json.str (chars "API 配置无效，事件流禁用。"),
             instanceDetails := none, level := none,
             timestamp := Json.str now2 } st2.events) := by
  refine ⟨rfl, rfl, rfl, rfl, rfl, ?_⟩
  intro apiId apiRoot apiToken apiName isInit now2 st2 h
  refine ⟨?_, ?_, ?_⟩ <;> simp [connectWithFetchStart, h]

/-- C9 witness: idle entry from the concrete live session clears everything
and emits nothing; a connection attempt with a missing id refuses to
proceed. -/
theorem C9_idle_entry_witness :
    (onConfigInvalid liveSession).events = [] ∧
    (onConfigInvalid liveSession).reconnectTimeout = none ∧
    (connectWithFetchStart none (some (chars "r")) (some (chars "t"))
      (some (chars "n")) true now0 abortedSession).2 = false := by
  have h := C9_idle_entry liveSession
  exact ⟨h.2.1, h.2.2.1,
    (h.2.2.2.2.2 none (some (chars "r")) (some (chars "t")) (some (chars "n"))
      true now0 abortedSession (by rfl)).1⟩

end NodePanel
